import Mathlib

/-!
# Service Bus namespace disaster-recovery config data source

A shallow embedding of
`internal/services/servicebus/servicebus_namespace_disaster_recovery_config_data_source.go`.

The file has two functions:

* `dataSourceServiceBusNamespaceDisasterRecoveryConfig`, which returns the schema table, and
* `dataSourceServiceBusNamespaceDisasterRecoveryConfigRead`, the read operation.

The cloud SDK (ID parsing, ID formatting, the two client calls) and the formatting
verbs of `fmt` are outside the repository; they enter the embedding as parameters
(`Sdk`, `Client`).  The resource data `d` is passed explicitly as a state, and the
calls made on the client are recorded in a trace.
-/

set_option autoImplicit false

namespace ServiceBus

/-! ## Data model -/

/-- One entry of the `map[string]*pluginsdk.Schema` table; all entries of this file
have `Type: pluginsdk.TypeString`.  `HasValidateFunc` records that a `ValidateFunc`
is attached (the validators themselves live outside the file). -/
structure Schema where
  Required : Bool
  Optional : Bool
  Computed : Bool
  Sensitive : Bool
  HasValidateFunc : Bool
  AtLeastOneOf : List String
  deriving DecidableEq, Repr

/-- The `Schema:` table of `dataSourceServiceBusNamespaceDisasterRecoveryConfig`
(source lines 26-81), in source order. -/
def dataSourceServiceBusNamespaceDisasterRecoveryConfig : List (String × Schema) :=
  [ ("name",
      ⟨true, false, false, false, false, []⟩),
    ("namespace_id",
      ⟨false, true, false, false, true, ["namespace_id", "resource_group_name", "namespace_name"]⟩),
    ("namespace_name",
      ⟨false, true, false, false, true, ["namespace_id", "resource_group_name", "namespace_name"]⟩),
    ("resource_group_name",
      ⟨false, true, false, false, true, ["namespace_id", "resource_group_name", "namespace_name"]⟩),
    ("partner_namespace_id",
      ⟨false, false, true, false, false, []⟩),
    ("primary_connection_string_alias",
      ⟨false, false, true, true, false, []⟩),
    ("secondary_connection_string_alias",
      ⟨false, false, true, true, false, []⟩),
    ("default_primary_key",
      ⟨false, false, true, true, false, []⟩),
    ("default_secondary_key",
      ⟨false, false, true, true, false, []⟩) ]

/-- Look a key up in a schema table (a Go map lookup). -/
def lookupSchema (tbl : List (String × Schema)) (k : String) : Option Schema :=
  (tbl.find? (fun e => e.1 == k)).map Prod.snd

/-- The keys of the table whose entry has `Computed: true`. -/
def computedKeys (tbl : List (String × Schema)) : List String :=
  (tbl.filter (fun e => e.2.Computed)).map Prod.fst

/-- A user configuration: the keys it supplies, with their values. -/
abbrev Config := List (String × String)

/-- Whether the configuration supplies key `k`. -/
def Config.supplies (c : Config) (k : String) : Bool :=
  c.any (fun e => e.1 == k)

/-- Modelled from the spec: the meaning of the constraint fields of `pluginsdk.Schema`, a
type declared by the plugin framework and not in this file.  Only the two declared
constraints are modelled, with the meaning their names carry: a `Required` key must be
supplied, and an entry with a non-empty `AtLeastOneOf` list needs at least one key among
that list and the entry's own key supplied. -/
def entryAccepts (c : Config) (e : String × Schema) : Bool :=
  (!e.2.Required || c.supplies e.1) &&
  (e.2.AtLeastOneOf.isEmpty || (e.2.AtLeastOneOf ++ [e.1]).any (fun k => c.supplies k))

/-- Modelled from the spec: a configuration passes the declared `Required` / `AtLeastOneOf`
constraints of a schema table when every entry accepts it (the loop over the entries belongs
to the plugin framework and is not in this file). -/
def schemaAccepts (tbl : List (String × Schema)) (c : Config) : Bool :=
  tbl.all (entryAccepts c)

/-- The `*pluginsdk.ResourceData` as far as the read uses it: the resource ID and the
string fields by key.  A field that is unset (or was set from a nil pointer) is `none`. -/
structure ResourceData where
  id : String
  fields : String → Option String

/-- The call `d.Get(key).(string)`: the value of a string field, the zero value when unset. -/
def ResourceData.Get (d : ResourceData) (key : String) : String :=
  (d.fields key).getD ""

/-- The call `d.Set(key, value)` for a string or `*string` value (`none` is the nil pointer). -/
def ResourceData.Set (d : ResourceData) (key : String) (value : Option String) : ResourceData :=
  ⟨d.id, fun k => if k = key then value else d.fields k⟩

/-- The call `d.SetId(v)`. -/
def ResourceData.SetId (d : ResourceData) (v : String) : ResourceData :=
  ⟨v, d.fields⟩

/-- The SDK type `disasterrecoveryconfigs.NamespaceId`. -/
structure NamespaceId where
  SubscriptionId : String
  ResourceGroupName : String
  NamespaceName : String
  deriving DecidableEq, Repr

/-- The SDK type `disasterrecoveryconfigs.DisasterRecoveryConfigId`. -/
structure DisasterRecoveryConfigId where
  SubscriptionId : String
  ResourceGroupName : String
  NamespaceName : String
  Alias : String
  deriving DecidableEq, Repr

/-- The SDK type `disasterrecoveryconfigs.AuthorizationRuleId`. -/
structure AuthorizationRuleId where
  SubscriptionId : String
  ResourceGroupName : String
  NamespaceName : String
  AuthorizationRuleName : String
  deriving DecidableEq, Repr

/-- The SDK function `disasterrecoveryconfigs.NewDisasterRecoveryConfigID`: a plain constructor. -/
def NewDisasterRecoveryConfigID (subscriptionId resourceGroupName namespaceName aliasName : String) :
    DisasterRecoveryConfigId :=
  ⟨subscriptionId, resourceGroupName, namespaceName, aliasName⟩

/-- The SDK function `disasterrecoveryconfigs.NewAuthorizationRuleID`: a plain constructor. -/
def NewAuthorizationRuleID
    (subscriptionId resourceGroupName namespaceName authorizationRuleName : String) :
    AuthorizationRuleId :=
  ⟨subscriptionId, resourceGroupName, namespaceName, authorizationRuleName⟩

/-- The part of `ArmDisasterRecoveryProperties` the read looks at. -/
structure ArmDisasterRecoveryProperties where
  PartnerNamespace : Option String
  deriving DecidableEq, Repr

/-- The part of `ArmDisasterRecovery` the read looks at. -/
structure ArmDisasterRecovery where
  Properties : Option ArmDisasterRecoveryProperties
  deriving DecidableEq, Repr

/-- The response of `client.Get`: the HTTP response (its status code, `none` for a nil
response) and the model. -/
structure GetOperationResponse where
  HttpResponse : Option Nat
  Model : Option ArmDisasterRecovery
  deriving DecidableEq, Repr

/-- The part of `AccessKeys` the read looks at. -/
structure AccessKeys where
  AliasPrimaryConnectionString : Option String
  AliasSecondaryConnectionString : Option String
  PrimaryKey : Option String
  SecondaryKey : Option String
  deriving DecidableEq, Repr

/-- The response of `client.ListKeys`. -/
structure ListKeysOperationResponse where
  HttpResponse : Option Nat
  Model : Option AccessKeys
  deriving DecidableEq, Repr

/-- The helper `response.WasNotFound`: the response is present and its status code is 404. -/
def WasNotFound (resp : Option Nat) : Bool :=
  match resp with
  | some code => code == 404
  | none => false

/-- The functions of the cloud SDK and of `fmt` that the read calls.  An `error` is
represented by its text as `%+v` prints it. -/
structure Sdk where
  /-- The parser `disasterrecoveryconfigs.ParseNamespaceID`. -/
  ParseNamespaceID : String → Except String NamespaceId
  /-- The method `id.ID()` of a disaster-recovery config ID. -/
  ID : DisasterRecoveryConfigId → String
  /-- The method `id.String()` of a disaster-recovery config ID, which `%s` prints. -/
  idString : DisasterRecoveryConfigId → String
  /-- The `%q` verb applied to a string. -/
  quote : String → String

/-- The `meta` argument as far as the read uses it: the account's subscription and the two
operations of the `DisasterRecoveryConfigsClient`, each returning a response and an error
(`none` is the nil error). -/
structure Client where
  SubscriptionId : String
  Get : DisasterRecoveryConfigId → GetOperationResponse × Option String
  ListKeys : AuthorizationRuleId → ListKeysOperationResponse × Option String

/-- What the read does to the outside, in order. -/
inductive Event where
  | get (id : DisasterRecoveryConfigId)
  | listKeys (id : AuthorizationRuleId)
  | warn (msg : String)
  deriving DecidableEq, Repr

/-- The outcome of a read: the returned error (`none` is nil), the resource data
afterwards, and the trace of client calls and log lines. -/
structure ReadResult where
  err : Option String
  d : ResourceData
  trace : List Event

/-- Whether an event of the trace is a keys lookup. -/
def Event.isListKeys : Event → Bool
  | .listKeys _ => true
  | _ => false

/-! ## The read operation -/

/-- Source lines 91-103: the resource group and namespace name, from `namespace_id` when it
is a non-empty string and from the pair otherwise; a parse error is returned formatted.
The type assertion `.(string)` on a string field always succeeds, so `ok` is true. -/
def resolveNamespace (sdk : Sdk) (d : ResourceData) : Except String (String × String) :=
  let v := d.Get "namespace_id"
  if v ≠ "" then
    match sdk.ParseNamespaceID v with
    | .error err => .error ("parsing topic ID " ++ sdk.quote v ++ ": " ++ err)
    | .ok namespaceId => .ok (namespaceId.ResourceGroupName, namespaceId.NamespaceName)
  else
    .ok (d.Get "resource_group_name", d.Get "namespace_name")

/-- Source lines 119-123: `partner_namespace_id` is set when the model and its properties
are present. -/
def setPartnerNamespace (d : ResourceData) (resp : GetOperationResponse) : ResourceData :=
  match resp.Model with
  | some model =>
    match model.Properties with
    | some props => d.Set "partner_namespace_id" props.PartnerNamespace
    | none => d
  | none => d

/-- Source lines 132-137: the four key fields are set when the keys model is present. -/
def setKeys (d : ResourceData) (keys : ListKeysOperationResponse) : ResourceData :=
  match keys.Model with
  | some keysModel =>
    let d := d.Set "primary_connection_string_alias" keysModel.AliasPrimaryConnectionString
    let d := d.Set "secondary_connection_string_alias" keysModel.AliasSecondaryConnectionString
    let d := d.Set "default_primary_key" keysModel.PrimaryKey
    let d := d.Set "default_secondary_key" keysModel.SecondaryKey
    d
  | none => d

/-- Source lines 85-140.  The context and its timeout play no part in the result.  Each
client operation is a function of the ID it is called with; the errors that `d.Set` returns
are discarded by the source and every key it sets is a string key of the schema. -/
def dataSourceServiceBusNamespaceDisasterRecoveryConfigRead
    (sdk : Sdk) (client : Client) (d : ResourceData) : ReadResult :=
  let subscriptionId := client.SubscriptionId
  match resolveNamespace sdk d with
  | .error e => ⟨some e, d, []⟩
  | .ok (resourceGroup, namespaceName) =>
    let id := NewDisasterRecoveryConfigID subscriptionId resourceGroup namespaceName (d.Get "name")
    let (resp, err) := client.Get id
    match err with
    | some err =>
      if WasNotFound resp.HttpResponse then
        ⟨none, d.SetId "", [Event.get id]⟩
      else
        ⟨some ("retrieving " ++ sdk.idString id ++ ": " ++ err), d, [Event.get id]⟩
    | none =>
      let d := d.Set "name" (some id.Alias)
      let d := d.Set "resource_group_name" (some id.ResourceGroupName)
      let d := d.Set "namespace_name" (some id.NamespaceName)
      let d := setPartnerNamespace d resp
      let d := d.SetId (sdk.ID id)
      let authRuleId := NewAuthorizationRuleID id.SubscriptionId id.ResourceGroupName
        id.NamespaceName (d.Get "name")
      let (keys, err) := client.ListKeys authRuleId
      match err with
      | some err =>
        ⟨none, d, [Event.get id, Event.listKeys authRuleId,
          Event.warn ("[WARN] listing default keys for " ++ sdk.idString id ++ ": " ++ err)]⟩
      | none =>
        ⟨none, setKeys d keys, [Event.get id, Event.listKeys authRuleId]⟩

/-- The resource data after source lines 115-125: `name`, `resource_group_name` and
`namespace_name` set from the queried ID, `partner_namespace_id` from the response, and the
resource ID set to the ID string. -/
def afterPrimary (sdk : Sdk) (d : ResourceData) (id : DisasterRecoveryConfigId)
    (resp : GetOperationResponse) : ResourceData :=
  (setPartnerNamespace
    (((d.Set "name" (some id.Alias)).Set "resource_group_name" (some id.ResourceGroupName)).Set
      "namespace_name" (some id.NamespaceName)) resp).SetId (sdk.ID id)

/-! ## Sample inputs -/

/-- A namespace ID string the sample parser accepts. -/
def sampleNamespaceIdText : String :=
  "/subscriptions/sub-n/resourceGroups/rg-n/providers/Microsoft.ServiceBus/namespaces/ns-n"

/-- A sample SDK: the parser accepts exactly `sampleNamespaceIdText`. -/
def sampleSdk : Sdk where
  ParseNamespaceID := fun s =>
    if s = sampleNamespaceIdText then .ok ⟨"sub-n", "rg-n", "ns-n"⟩
    else .error "parsing segments"
  ID := fun id =>
    "/subscriptions/" ++ id.SubscriptionId ++ "/resourceGroups/" ++ id.ResourceGroupName ++
      "/providers/Microsoft.ServiceBus/namespaces/" ++ id.NamespaceName ++
      "/disasterRecoveryConfigs/" ++ id.Alias
  idString := fun id =>
    "Disaster Recovery Config (" ++ id.SubscriptionId ++ ", " ++ id.ResourceGroupName ++ ", " ++
      id.NamespaceName ++ ", " ++ id.Alias ++ ")"
  quote := fun s => "\"" ++ s ++ "\""

/-- Resource data built from a configuration: every supplied key is set, the rest unset. -/
def ResourceData.ofConfig (c : Config) : ResourceData :=
  ⟨"", fun k => (c.find? (fun e => e.1 == k)).map Prod.snd⟩

/-- A sample client whose two operations answer with the given results. -/
def sampleClient (g : GetOperationResponse × Option String)
    (l : ListKeysOperationResponse × Option String) : Client :=
  ⟨"sub-account", fun _ => g, fun _ => l⟩

/-- A successful `Get` answer with a partner namespace. -/
def sampleGetOk : GetOperationResponse × Option String :=
  (⟨some 200, some ⟨some ⟨some "partner-ns"⟩⟩⟩, none)

/-- A successful `ListKeys` answer. -/
def sampleKeysOk : ListKeysOperationResponse × Option String :=
  (⟨some 200, some ⟨some "alias-conn-1", some "alias-conn-2", some "key-1", some "key-2"⟩⟩, none)

/-- A `Get` answer that failed with a not-found response. -/
def sampleGetNotFound : GetOperationResponse × Option String :=
  (⟨some 404, none⟩, some "unexpected status 404")

/-- A `Get` answer that failed with another status. -/
def sampleGetError : GetOperationResponse × Option String :=
  (⟨some 500, none⟩, some "unexpected status 500")

/-- A `ListKeys` answer that failed with a not-found response. -/
def sampleKeysError : ListKeysOperationResponse × Option String :=
  (⟨some 404, none⟩, some "unexpected status 404")

/-- A configuration that supplies `name` and `resource_group_name` only. -/
def sampleConfigLoneGroup : Config :=
  [("name", "dr"), ("resource_group_name", "rg-p")]

/-- The four fields the read fills from the keys response (source lines 133-136). -/
def keyFieldNames : List String :=
  ["primary_connection_string_alias", "secondary_connection_string_alias",
    "default_primary_key", "default_secondary_key"]

/-- Sample data naming the namespace by the pair. -/
def sampleDataPair : ResourceData :=
  ResourceData.ofConfig [("name", "dr"), ("resource_group_name", "rg-p"), ("namespace_name", "ns-p")]

/-- Sample data naming the namespace by ID, with the pair supplied as well. -/
def sampleDataId : ResourceData :=
  ResourceData.ofConfig [("name", "dr"), ("namespace_id", sampleNamespaceIdText),
    ("resource_group_name", "rg-p"), ("namespace_name", "ns-p")]

/-- Sample data with a namespace ID that does not parse, and a valid pair. -/
def sampleDataBadId : ResourceData :=
  ResourceData.ofConfig [("name", "dr"), ("namespace_id", "not-an-id"),
    ("resource_group_name", "rg-p"), ("namespace_name", "ns-p")]

/-! ## Basic facts about the resource data -/

theorem Set_fields_same (d : ResourceData) (key : String) (v : Option String) :
    (d.Set key v).fields key = v := by
  simp [ResourceData.Set]

theorem Set_fields_other (d : ResourceData) (key k : String) (v : Option String) (h : k ≠ key) :
    (d.Set key v).fields k = d.fields k := by
  simp [ResourceData.Set, h]

theorem setPartnerNamespace_id (d : ResourceData) (resp : GetOperationResponse) :
    (setPartnerNamespace d resp).id = d.id := by
  unfold setPartnerNamespace
  split
  · split <;> rfl
  · rfl

theorem setPartnerNamespace_fields_other (d : ResourceData) (resp : GetOperationResponse)
    (k : String) (h : k ≠ "partner_namespace_id") :
    (setPartnerNamespace d resp).fields k = d.fields k := by
  unfold setPartnerNamespace
  split
  · split
    · exact Set_fields_other _ _ _ _ h
    · rfl
  · rfl

theorem afterPrimary_id (sdk : Sdk) (d : ResourceData) (id : DisasterRecoveryConfigId)
    (resp : GetOperationResponse) : (afterPrimary sdk d id resp).id = sdk.ID id := rfl

theorem afterPrimary_name (sdk : Sdk) (d : ResourceData) (id : DisasterRecoveryConfigId)
    (resp : GetOperationResponse) : (afterPrimary sdk d id resp).fields "name" = some id.Alias := by
  show (setPartnerNamespace _ resp).fields "name" = _
  rw [setPartnerNamespace_fields_other _ _ _ (by decide)]
  simp [ResourceData.Set]

theorem afterPrimary_resource_group_name (sdk : Sdk) (d : ResourceData)
    (id : DisasterRecoveryConfigId) (resp : GetOperationResponse) :
    (afterPrimary sdk d id resp).fields "resource_group_name" = some id.ResourceGroupName := by
  show (setPartnerNamespace _ resp).fields "resource_group_name" = _
  rw [setPartnerNamespace_fields_other _ _ _ (by decide)]
  simp [ResourceData.Set]

theorem afterPrimary_namespace_name (sdk : Sdk) (d : ResourceData)
    (id : DisasterRecoveryConfigId) (resp : GetOperationResponse) :
    (afterPrimary sdk d id resp).fields "namespace_name" = some id.NamespaceName := by
  show (setPartnerNamespace _ resp).fields "namespace_name" = _
  rw [setPartnerNamespace_fields_other _ _ _ (by decide)]
  simp [ResourceData.Set]

theorem afterPrimary_partner (sdk : Sdk) (d : ResourceData) (id : DisasterRecoveryConfigId)
    (resp : GetOperationResponse) :
    (afterPrimary sdk d id resp).fields "partner_namespace_id" =
      (match resp.Model.bind (fun model => model.Properties) with
       | some props => props.PartnerNamespace
       | none => d.fields "partner_namespace_id") := by
  show (setPartnerNamespace _ resp).fields "partner_namespace_id" = _
  unfold setPartnerNamespace
  cases hm : resp.Model with
  | none => simp [ResourceData.Set]
  | some model =>
    cases hp : model.Properties with
    | none => simp [hp, ResourceData.Set]
    | some props => simp [hp, ResourceData.Set]

theorem afterPrimary_fields_other (sdk : Sdk) (d : ResourceData) (id : DisasterRecoveryConfigId)
    (resp : GetOperationResponse) (k : String) (h1 : k ≠ "name")
    (h2 : k ≠ "resource_group_name") (h3 : k ≠ "namespace_name")
    (h4 : k ≠ "partner_namespace_id") :
    (afterPrimary sdk d id resp).fields k = d.fields k := by
  show (setPartnerNamespace _ resp).fields k = _
  rw [setPartnerNamespace_fields_other _ _ _ h4]
  simp [ResourceData.Set, h1, h2, h3]

/-- The read after a successful primary lookup, in terms of `afterPrimary`: the keys lookup
is made for the authorization rule named by the alias. -/
theorem read_of_get_ok (sdk : Sdk) (client : Client) (d : ResourceData)
    (rg ns : String) (resp : GetOperationResponse)
    (hres : resolveNamespace sdk d = .ok (rg, ns))
    (hget : client.Get (NewDisasterRecoveryConfigID client.SubscriptionId rg ns (d.Get "name"))
      = (resp, none)) :
    dataSourceServiceBusNamespaceDisasterRecoveryConfigRead sdk client d =
      (match (client.ListKeys
          (NewAuthorizationRuleID client.SubscriptionId rg ns (d.Get "name"))).2 with
       | some err =>
         ⟨none,
          afterPrimary sdk d
            (NewDisasterRecoveryConfigID client.SubscriptionId rg ns (d.Get "name")) resp,
          [Event.get (NewDisasterRecoveryConfigID client.SubscriptionId rg ns (d.Get "name")),
           Event.listKeys (NewAuthorizationRuleID client.SubscriptionId rg ns (d.Get "name")),
           Event.warn ("[WARN] listing default keys for " ++
             sdk.idString
               (NewDisasterRecoveryConfigID client.SubscriptionId rg ns (d.Get "name")) ++
             ": " ++ err)]⟩
       | none =>
         ⟨none,
          setKeys (afterPrimary sdk d
            (NewDisasterRecoveryConfigID client.SubscriptionId rg ns (d.Get "name")) resp)
            (client.ListKeys
              (NewAuthorizationRuleID client.SubscriptionId rg ns (d.Get "name"))).1,
          [Event.get (NewDisasterRecoveryConfigID client.SubscriptionId rg ns (d.Get "name")),
           Event.listKeys
             (NewAuthorizationRuleID client.SubscriptionId rg ns (d.Get "name"))]⟩) := by
  have hname : (afterPrimary sdk d
      (NewDisasterRecoveryConfigID client.SubscriptionId rg ns (d.Get "name")) resp).Get "name"
      = d.Get "name" := by
    unfold ResourceData.Get
    rw [afterPrimary_name]
    rfl
  unfold afterPrimary at hname
  simp only [dataSourceServiceBusNamespaceDisasterRecoveryConfigRead, hres, hget, hname]
  rfl

/-- The read when both lookups succeed. -/
theorem read_of_both_ok (sdk : Sdk) (client : Client) (d : ResourceData)
    (rg ns : String) (resp : GetOperationResponse) (keys : ListKeysOperationResponse)
    (hres : resolveNamespace sdk d = .ok (rg, ns))
    (hget : client.Get (NewDisasterRecoveryConfigID client.SubscriptionId rg ns (d.Get "name"))
      = (resp, none))
    (hkeys : client.ListKeys (NewAuthorizationRuleID client.SubscriptionId rg ns (d.Get "name"))
      = (keys, none)) :
    dataSourceServiceBusNamespaceDisasterRecoveryConfigRead sdk client d =
      ⟨none,
       setKeys (afterPrimary sdk d
         (NewDisasterRecoveryConfigID client.SubscriptionId rg ns (d.Get "name")) resp) keys,
       [Event.get (NewDisasterRecoveryConfigID client.SubscriptionId rg ns (d.Get "name")),
        Event.listKeys (NewAuthorizationRuleID client.SubscriptionId rg ns (d.Get "name"))]⟩ := by
  rw [read_of_get_ok sdk client d rg ns resp hres hget, hkeys]

/-- The read when the primary lookup succeeds and the keys lookup fails. -/
theorem read_of_keys_err (sdk : Sdk) (client : Client) (d : ResourceData)
    (rg ns e : String) (resp : GetOperationResponse) (keys : ListKeysOperationResponse)
    (hres : resolveNamespace sdk d = .ok (rg, ns))
    (hget : client.Get (NewDisasterRecoveryConfigID client.SubscriptionId rg ns (d.Get "name"))
      = (resp, none))
    (hkeys : client.ListKeys (NewAuthorizationRuleID client.SubscriptionId rg ns (d.Get "name"))
      = (keys, some e)) :
    dataSourceServiceBusNamespaceDisasterRecoveryConfigRead sdk client d =
      ⟨none,
       afterPrimary sdk d
         (NewDisasterRecoveryConfigID client.SubscriptionId rg ns (d.Get "name")) resp,
       [Event.get (NewDisasterRecoveryConfigID client.SubscriptionId rg ns (d.Get "name")),
        Event.listKeys (NewAuthorizationRuleID client.SubscriptionId rg ns (d.Get "name")),
        Event.warn ("[WARN] listing default keys for " ++
          sdk.idString (NewDisasterRecoveryConfigID client.SubscriptionId rg ns (d.Get "name")) ++
          ": " ++ e)]⟩ := by
  rw [read_of_get_ok sdk client d rg ns resp hres hget, hkeys]

/-- The read after a failed primary lookup: the not-found case clears the ID, any other
error is returned; either way the trace is the one `Get` call. -/
theorem read_of_get_err (sdk : Sdk) (client : Client) (d : ResourceData)
    (rg ns e : String) (resp : GetOperationResponse)
    (hres : resolveNamespace sdk d = .ok (rg, ns))
    (hget : client.Get (NewDisasterRecoveryConfigID client.SubscriptionId rg ns (d.Get "name"))
      = (resp, some e)) :
    dataSourceServiceBusNamespaceDisasterRecoveryConfigRead sdk client d =
      if WasNotFound resp.HttpResponse then
        ⟨none, d.SetId "",
          [Event.get (NewDisasterRecoveryConfigID client.SubscriptionId rg ns (d.Get "name"))]⟩
      else
        ⟨some ("retrieving " ++
          sdk.idString (NewDisasterRecoveryConfigID client.SubscriptionId rg ns (d.Get "name")) ++
          ": " ++ e), d,
          [Event.get (NewDisasterRecoveryConfigID client.SubscriptionId rg ns (d.Get "name"))]⟩ := by
  simp only [dataSourceServiceBusNamespaceDisasterRecoveryConfigRead, hres, hget]

/-- The read after a namespace ID that does not parse. -/
theorem read_of_resolve_err (sdk : Sdk) (client : Client) (d : ResourceData) (msg : String)
    (hres : resolveNamespace sdk d = .error msg) :
    dataSourceServiceBusNamespaceDisasterRecoveryConfigRead sdk client d = ⟨some msg, d, []⟩ := by
  simp only [dataSourceServiceBusNamespaceDisasterRecoveryConfigRead, hres]

/-- Once the namespace is resolved, the first event of the trace is the `Get` call for the
ID built from the account's subscription, the resolved pair and the `name` input. -/
theorem read_trace_head (sdk : Sdk) (client : Client) (d : ResourceData) (rg ns : String)
    (hres : resolveNamespace sdk d = .ok (rg, ns)) :
    (dataSourceServiceBusNamespaceDisasterRecoveryConfigRead sdk client d).trace.head? =
      some (Event.get ⟨client.SubscriptionId, rg, ns, d.Get "name"⟩) := by
  rcases hg : client.Get (NewDisasterRecoveryConfigID client.SubscriptionId rg ns
    (d.Get "name")) with ⟨resp, err⟩
  cases err with
  | some e =>
    rw [read_of_get_err sdk client d rg ns e resp hres hg]
    split <;> rfl
  | none =>
    rw [read_of_get_ok sdk client d rg ns resp hres hg]
    cases (client.ListKeys (NewAuthorizationRuleID client.SubscriptionId rg ns
      (d.Get "name"))).2 <;> rfl

/-! ## Errors of the primary lookup -/

/-- C1: when the primary lookup (`client.Get`) fails with a not-found response, the read
returns no error, sets the resource ID to the empty string, leaves every field of the state
as it was, and makes no keys lookup (`client.ListKeys`): the trace is the one `Get` call. -/
theorem read_primary_not_found (sdk : Sdk) (client : Client) (d : ResourceData)
    (rg ns e : String) (resp : GetOperationResponse)
    (hres : resolveNamespace sdk d = .ok (rg, ns))
    (hget : client.Get (NewDisasterRecoveryConfigID client.SubscriptionId rg ns (d.Get "name"))
      = (resp, some e))
    (hnf : WasNotFound resp.HttpResponse = true) :
    (dataSourceServiceBusNamespaceDisasterRecoveryConfigRead sdk client d).err = none ∧
    (dataSourceServiceBusNamespaceDisasterRecoveryConfigRead sdk client d).d.id = "" ∧
    (dataSourceServiceBusNamespaceDisasterRecoveryConfigRead sdk client d).d.fields = d.fields ∧
    (dataSourceServiceBusNamespaceDisasterRecoveryConfigRead sdk client d).trace =
      [Event.get (NewDisasterRecoveryConfigID client.SubscriptionId rg ns (d.Get "name"))] ∧
    (∀ a, Event.listKeys a ∉
      (dataSourceServiceBusNamespaceDisasterRecoveryConfigRead sdk client d).trace) := by
  simp [dataSourceServiceBusNamespaceDisasterRecoveryConfigRead, hres, hget, hnf,
    ResourceData.SetId]

/-- C2: when the primary lookup (`client.Get`) returns an error that is not a not-found
response, the read returns the error `retrieving <id>: <underlying error>`, leaves the
resource ID and every field unchanged, and makes no keys lookup (`client.ListKeys`). -/
theorem read_primary_error_fatal (sdk : Sdk) (client : Client) (d : ResourceData)
    (rg ns e : String) (resp : GetOperationResponse)
    (hres : resolveNamespace sdk d = .ok (rg, ns))
    (hget : client.Get (NewDisasterRecoveryConfigID client.SubscriptionId rg ns (d.Get "name"))
      = (resp, some e))
    (hnf : WasNotFound resp.HttpResponse = false) :
    (dataSourceServiceBusNamespaceDisasterRecoveryConfigRead sdk client d).err =
      some ("retrieving " ++
        sdk.idString (NewDisasterRecoveryConfigID client.SubscriptionId rg ns (d.Get "name")) ++
        ": " ++ e) ∧
    (dataSourceServiceBusNamespaceDisasterRecoveryConfigRead sdk client d).d.id = d.id ∧
    (dataSourceServiceBusNamespaceDisasterRecoveryConfigRead sdk client d).d.fields = d.fields ∧
    (dataSourceServiceBusNamespaceDisasterRecoveryConfigRead sdk client d).trace =
      [Event.get (NewDisasterRecoveryConfigID client.SubscriptionId rg ns (d.Get "name"))] ∧
    (∀ a, Event.listKeys a ∉
      (dataSourceServiceBusNamespaceDisasterRecoveryConfigRead sdk client d).trace) := by
  simp [dataSourceServiceBusNamespaceDisasterRecoveryConfigRead, hres, hget, hnf]

theorem read_primary_not_found_witness :
    resolveNamespace sampleSdk sampleDataPair = .ok ("rg-p", "ns-p") ∧
    WasNotFound sampleGetNotFound.1.HttpResponse = true ∧
    (dataSourceServiceBusNamespaceDisasterRecoveryConfigRead sampleSdk
      (sampleClient sampleGetNotFound sampleKeysOk) sampleDataPair).err = none ∧
    (dataSourceServiceBusNamespaceDisasterRecoveryConfigRead sampleSdk
      (sampleClient sampleGetNotFound sampleKeysOk) sampleDataPair).d.id = "" ∧
    (dataSourceServiceBusNamespaceDisasterRecoveryConfigRead sampleSdk
      (sampleClient sampleGetNotFound sampleKeysOk) sampleDataPair).d.fields =
        sampleDataPair.fields :=
  have h := read_primary_not_found sampleSdk (sampleClient sampleGetNotFound sampleKeysOk)
    sampleDataPair "rg-p" "ns-p" "unexpected status 404" ⟨some 404, none⟩ rfl rfl (by decide)
  ⟨rfl, by decide, h.1, h.2.1, h.2.2.1⟩

theorem read_primary_error_fatal_witness :
    resolveNamespace sampleSdk sampleDataId = .ok ("rg-n", "ns-n") ∧
    WasNotFound sampleGetError.1.HttpResponse = false ∧
    (dataSourceServiceBusNamespaceDisasterRecoveryConfigRead sampleSdk
      (sampleClient sampleGetError sampleKeysOk) sampleDataId).err =
      some ("retrieving " ++
        sampleSdk.idString (NewDisasterRecoveryConfigID "sub-account" "rg-n" "ns-n" "dr") ++
        ": " ++ "unexpected status 500") ∧
    (dataSourceServiceBusNamespaceDisasterRecoveryConfigRead sampleSdk
      (sampleClient sampleGetError sampleKeysOk) sampleDataId).d.id = sampleDataId.id ∧
    (dataSourceServiceBusNamespaceDisasterRecoveryConfigRead sampleSdk
      (sampleClient sampleGetError sampleKeysOk) sampleDataId).d.fields = sampleDataId.fields :=
  have h := read_primary_error_fatal sampleSdk (sampleClient sampleGetError sampleKeysOk)
    sampleDataId "rg-n" "ns-n" "unexpected status 500" ⟨some 500, none⟩ rfl rfl (by decide)
  ⟨rfl, by decide, h.1, h.2.1, h.2.2.1⟩

/-! ## A namespace ID that does not parse -/

/-- C9: when `namespace_id` is a non-empty string that `ParseNamespaceID` rejects, the read
returns the error `parsing topic ID <quoted value>: <parse error>`, makes no client call at
all (neither `Get` nor `ListKeys`), and leaves the resource ID and every field unchanged,
whatever `resource_group_name` and `namespace_name` hold. -/
theorem read_bad_namespace_id (sdk : Sdk) (client : Client) (d : ResourceData) (e : String)
    (hne : d.Get "namespace_id" ≠ "")
    (hparse : sdk.ParseNamespaceID (d.Get "namespace_id") = .error e) :
    (dataSourceServiceBusNamespaceDisasterRecoveryConfigRead sdk client d).err =
      some ("parsing topic ID " ++ sdk.quote (d.Get "namespace_id") ++ ": " ++ e) ∧
    (dataSourceServiceBusNamespaceDisasterRecoveryConfigRead sdk client d).trace = [] ∧
    (dataSourceServiceBusNamespaceDisasterRecoveryConfigRead sdk client d).d.id = d.id ∧
    (dataSourceServiceBusNamespaceDisasterRecoveryConfigRead sdk client d).d.fields = d.fields := by
  simp [dataSourceServiceBusNamespaceDisasterRecoveryConfigRead, resolveNamespace, hne, hparse]

theorem read_bad_namespace_id_witness :
    sampleDataBadId.Get "namespace_id" = "not-an-id" ∧
    sampleDataBadId.Get "resource_group_name" = "rg-p" ∧
    sampleDataBadId.Get "namespace_name" = "ns-p" ∧
    (dataSourceServiceBusNamespaceDisasterRecoveryConfigRead sampleSdk
      (sampleClient sampleGetOk sampleKeysOk) sampleDataBadId).err =
      some ("parsing topic ID " ++ sampleSdk.quote (sampleDataBadId.Get "namespace_id") ++
        ": " ++ "parsing segments") ∧
    (dataSourceServiceBusNamespaceDisasterRecoveryConfigRead sampleSdk
      (sampleClient sampleGetOk sampleKeysOk) sampleDataBadId).trace = [] :=
  have h := read_bad_namespace_id sampleSdk (sampleClient sampleGetOk sampleKeysOk)
    sampleDataBadId "parsing segments" (by decide) rfl
  ⟨by decide, by decide, by decide, h.1, h.2.1⟩

/-! ## Errors of the keys lookup -/

/-- C3: when the primary lookup succeeds and the keys lookup (`client.ListKeys`) returns an
error, of any kind, the read returns no error; the four key fields are left as they were
(so unset when they were unset); and the resource ID, `name`, `resource_group_name`,
`namespace_name` and `partner_namespace_id` are what the primary lookup set: the ID string,
the alias, resource group and namespace name of the queried ID, and the partner namespace
of the response when its model and properties are present (untouched otherwise). -/
theorem read_keys_error_not_fatal (sdk : Sdk) (client : Client) (d : ResourceData)
    (rg ns e : String) (resp : GetOperationResponse) (keys : ListKeysOperationResponse)
    (hres : resolveNamespace sdk d = .ok (rg, ns))
    (hget : client.Get (NewDisasterRecoveryConfigID client.SubscriptionId rg ns (d.Get "name"))
      = (resp, none))
    (hkeys : client.ListKeys (NewAuthorizationRuleID client.SubscriptionId rg ns (d.Get "name"))
      = (keys, some e)) :
    (dataSourceServiceBusNamespaceDisasterRecoveryConfigRead sdk client d).err = none ∧
    (∀ k ∈ ["primary_connection_string_alias", "secondary_connection_string_alias",
        "default_primary_key", "default_secondary_key"],
      (dataSourceServiceBusNamespaceDisasterRecoveryConfigRead sdk client d).d.fields k
        = d.fields k ∧
      (d.fields k = none →
        (dataSourceServiceBusNamespaceDisasterRecoveryConfigRead sdk client d).d.fields k
          = none)) ∧
    (dataSourceServiceBusNamespaceDisasterRecoveryConfigRead sdk client d).d =
      afterPrimary sdk d
        (NewDisasterRecoveryConfigID client.SubscriptionId rg ns (d.Get "name")) resp ∧
    (dataSourceServiceBusNamespaceDisasterRecoveryConfigRead sdk client d).d.id =
      sdk.ID (NewDisasterRecoveryConfigID client.SubscriptionId rg ns (d.Get "name")) ∧
    (dataSourceServiceBusNamespaceDisasterRecoveryConfigRead sdk client d).d.fields "name" =
      some (d.Get "name") ∧
    (dataSourceServiceBusNamespaceDisasterRecoveryConfigRead sdk client d).d.fields
      "resource_group_name" = some rg ∧
    (dataSourceServiceBusNamespaceDisasterRecoveryConfigRead sdk client d).d.fields
      "namespace_name" = some ns ∧
    (dataSourceServiceBusNamespaceDisasterRecoveryConfigRead sdk client d).d.fields
      "partner_namespace_id" =
      (match resp.Model.bind (fun model => model.Properties) with
       | some props => props.PartnerNamespace
       | none => d.fields "partner_namespace_id") := by
  rw [read_of_keys_err sdk client d rg ns e resp keys hres hget hkeys]
  refine ⟨rfl, ?_, rfl, rfl, afterPrimary_name _ _ _ _,
    afterPrimary_resource_group_name _ _ _ _, afterPrimary_namespace_name _ _ _ _,
    afterPrimary_partner _ _ _ _⟩
  intro k hk
  have hfix : (afterPrimary sdk d
      (NewDisasterRecoveryConfigID client.SubscriptionId rg ns (d.Get "name")) resp).fields k
      = d.fields k := by
    apply afterPrimary_fields_other
    · rintro rfl; simp at hk
    · rintro rfl; simp at hk
    · rintro rfl; simp at hk
    · rintro rfl; simp at hk
  refine ⟨hfix, fun h => ?_⟩
  rw [← h]
  exact hfix

theorem read_keys_error_not_fatal_witness :
    resolveNamespace sampleSdk sampleDataPair = .ok ("rg-p", "ns-p") ∧
    (dataSourceServiceBusNamespaceDisasterRecoveryConfigRead sampleSdk
      (sampleClient sampleGetOk sampleKeysError) sampleDataPair).err = none ∧
    (dataSourceServiceBusNamespaceDisasterRecoveryConfigRead sampleSdk
      (sampleClient sampleGetOk sampleKeysError) sampleDataPair).d.fields
      "default_primary_key" = none ∧
    (dataSourceServiceBusNamespaceDisasterRecoveryConfigRead sampleSdk
      (sampleClient sampleGetOk sampleKeysError) sampleDataPair).d.fields
      "partner_namespace_id" = some "partner-ns" :=
  have h := read_keys_error_not_fatal sampleSdk (sampleClient sampleGetOk sampleKeysError)
    sampleDataPair "rg-p" "ns-p" "unexpected status 404" sampleGetOk.1 sampleKeysError.1
    rfl rfl rfl
  ⟨rfl, h.1, (h.2.1 "default_primary_key" (by decide)).2 (by decide), by decide⟩

/-! ## The queried IDs -/

/-- C5: the disaster-recovery config ID the read queries (the argument of its first client
call).  When `namespace_id` is a non-empty string that parses, the queried resource group
and namespace name are those of the parsed ID, whatever `resource_group_name` and
`namespace_name` hold; when `namespace_id` is empty they are the `resource_group_name` and
`namespace_name` inputs.  In both cases the alias is the `name` input and the subscription is
the account's, not the one inside `namespace_id`: two reads whose namespace IDs parse to the
same resource group and namespace name, with the same `name` and account, query the same ID
whatever else differs (the pair inputs, the subscription inside the namespace ID). -/
theorem read_queried_id (sdk : Sdk) (client : Client) (d : ResourceData) :
    (∀ n : NamespaceId, d.Get "namespace_id" ≠ "" →
      sdk.ParseNamespaceID (d.Get "namespace_id") = .ok n →
      (dataSourceServiceBusNamespaceDisasterRecoveryConfigRead sdk client d).trace.head? =
        some (Event.get ⟨client.SubscriptionId, n.ResourceGroupName, n.NamespaceName,
          d.Get "name"⟩) ∧
      ∀ (sdk2 : Sdk) (client2 : Client) (d2 : ResourceData) (n2 : NamespaceId),
        d2.Get "namespace_id" ≠ "" →
        sdk2.ParseNamespaceID (d2.Get "namespace_id") = .ok n2 →
        n2.ResourceGroupName = n.ResourceGroupName → n2.NamespaceName = n.NamespaceName →
        d2.Get "name" = d.Get "name" → client2.SubscriptionId = client.SubscriptionId →
        (dataSourceServiceBusNamespaceDisasterRecoveryConfigRead sdk2 client2 d2).trace.head? =
          (dataSourceServiceBusNamespaceDisasterRecoveryConfigRead sdk client d).trace.head?) ∧
    (d.Get "namespace_id" = "" →
      (dataSourceServiceBusNamespaceDisasterRecoveryConfigRead sdk client d).trace.head? =
        some (Event.get ⟨client.SubscriptionId, d.Get "resource_group_name",
          d.Get "namespace_name", d.Get "name"⟩)) := by
  have byId : ∀ (s : Sdk) (c : Client) (x : ResourceData) (n : NamespaceId),
      x.Get "namespace_id" ≠ "" → s.ParseNamespaceID (x.Get "namespace_id") = .ok n →
      (dataSourceServiceBusNamespaceDisasterRecoveryConfigRead s c x).trace.head? =
        some (Event.get ⟨c.SubscriptionId, n.ResourceGroupName, n.NamespaceName,
          x.Get "name"⟩) := by
    intro s c x n hne hparse
    apply read_trace_head
    simp [resolveNamespace, hne, hparse]
  constructor
  · intro n hne hparse
    refine ⟨byId sdk client d n hne hparse, ?_⟩
    intro sdk2 client2 d2 n2 hne2 hparse2 hrg hns hname hsub
    rw [byId sdk client d n hne hparse, byId sdk2 client2 d2 n2 hne2 hparse2,
      hrg, hns, hname, hsub]
  · intro hempty
    apply read_trace_head
    simp [resolveNamespace, hempty]

theorem read_queried_id_witness :
    sampleDataId.Get "namespace_id" ≠ "" ∧
    sampleSdk.ParseNamespaceID (sampleDataId.Get "namespace_id") = .ok ⟨"sub-n", "rg-n", "ns-n"⟩ ∧
    sampleDataId.Get "resource_group_name" = "rg-p" ∧
    (dataSourceServiceBusNamespaceDisasterRecoveryConfigRead sampleSdk
      (sampleClient sampleGetOk sampleKeysOk) sampleDataId).trace.head? =
      some (Event.get ⟨"sub-account", "rg-n", "ns-n", "dr"⟩) ∧
    sampleDataPair.Get "namespace_id" = "" ∧
    (dataSourceServiceBusNamespaceDisasterRecoveryConfigRead sampleSdk
      (sampleClient sampleGetOk sampleKeysOk) sampleDataPair).trace.head? =
      some (Event.get ⟨"sub-account", "rg-p", "ns-p", "dr"⟩) :=
  ⟨by decide, rfl, by decide,
    ((read_queried_id sampleSdk (sampleClient sampleGetOk sampleKeysOk) sampleDataId).1
      ⟨"sub-n", "rg-n", "ns-n"⟩ (by decide) rfl).1,
    by decide,
    (read_queried_id sampleSdk (sampleClient sampleGetOk sampleKeysOk) sampleDataPair).2
      (by decide)⟩

/-! ## The successful read -/

theorem setKeys_id (d : ResourceData) (keys : ListKeysOperationResponse) :
    (setKeys d keys).id = d.id := by
  unfold setKeys
  split <;> rfl

theorem setKeys_fields_other (d : ResourceData) (keys : ListKeysOperationResponse) (k : String)
    (h1 : k ≠ "primary_connection_string_alias") (h2 : k ≠ "secondary_connection_string_alias")
    (h3 : k ≠ "default_primary_key") (h4 : k ≠ "default_secondary_key") :
    (setKeys d keys).fields k = d.fields k := by
  unfold setKeys
  split
  · simp [ResourceData.Set, h1, h2, h3, h4]
  · rfl

/-- C6: when both lookups succeed and the config model, its properties and the keys model
are present, the read returns no error and the state is a field-for-field copy: the resource
ID is the ID string of the queried config ID; `name`, `resource_group_name` and
`namespace_name` are its alias, resource group and namespace name; `partner_namespace_id` is
the response's `PartnerNamespace`; and the four key fields are the keys response's
`AliasPrimaryConnectionString`, `AliasSecondaryConnectionString`, `PrimaryKey` and
`SecondaryKey`.  Every other field is left as it was. -/
theorem read_success_copies_fields (sdk : Sdk) (client : Client) (d : ResourceData)
    (rg ns : String) (h1 h2 : Option Nat) (props : ArmDisasterRecoveryProperties)
    (keysModel : AccessKeys)
    (hres : resolveNamespace sdk d = .ok (rg, ns))
    (hget : client.Get (NewDisasterRecoveryConfigID client.SubscriptionId rg ns (d.Get "name"))
      = (⟨h1, some ⟨some props⟩⟩, none))
    (hkeys : client.ListKeys (NewAuthorizationRuleID client.SubscriptionId rg ns (d.Get "name"))
      = (⟨h2, some keysModel⟩, none)) :
    (dataSourceServiceBusNamespaceDisasterRecoveryConfigRead sdk client d).err = none ∧
    (dataSourceServiceBusNamespaceDisasterRecoveryConfigRead sdk client d).d.id =
      sdk.ID (NewDisasterRecoveryConfigID client.SubscriptionId rg ns (d.Get "name")) ∧
    (dataSourceServiceBusNamespaceDisasterRecoveryConfigRead sdk client d).d.fields "name" =
      some (NewDisasterRecoveryConfigID client.SubscriptionId rg ns (d.Get "name")).Alias ∧
    (dataSourceServiceBusNamespaceDisasterRecoveryConfigRead sdk client d).d.fields
      "resource_group_name" =
      some (NewDisasterRecoveryConfigID client.SubscriptionId rg ns
        (d.Get "name")).ResourceGroupName ∧
    (dataSourceServiceBusNamespaceDisasterRecoveryConfigRead sdk client d).d.fields
      "namespace_name" =
      some (NewDisasterRecoveryConfigID client.SubscriptionId rg ns
        (d.Get "name")).NamespaceName ∧
    (dataSourceServiceBusNamespaceDisasterRecoveryConfigRead sdk client d).d.fields
      "partner_namespace_id" = props.PartnerNamespace ∧
    (dataSourceServiceBusNamespaceDisasterRecoveryConfigRead sdk client d).d.fields
      "primary_connection_string_alias" = keysModel.AliasPrimaryConnectionString ∧
    (dataSourceServiceBusNamespaceDisasterRecoveryConfigRead sdk client d).d.fields
      "secondary_connection_string_alias" = keysModel.AliasSecondaryConnectionString ∧
    (dataSourceServiceBusNamespaceDisasterRecoveryConfigRead sdk client d).d.fields
      "default_primary_key" = keysModel.PrimaryKey ∧
    (dataSourceServiceBusNamespaceDisasterRecoveryConfigRead sdk client d).d.fields
      "default_secondary_key" = keysModel.SecondaryKey ∧
    (∀ k, k ∉ ["name", "resource_group_name", "namespace_name", "partner_namespace_id",
        "primary_connection_string_alias", "secondary_connection_string_alias",
        "default_primary_key", "default_secondary_key"] →
      (dataSourceServiceBusNamespaceDisasterRecoveryConfigRead sdk client d).d.fields k
        = d.fields k) := by
  rw [read_of_both_ok sdk client d rg ns _ _ hres hget hkeys]
  refine ⟨rfl, ?_, ?_, ?_, ?_, ?_, ?_, ?_, ?_, ?_, ?_⟩
  · dsimp only
    rw [setKeys_id]; rfl
  · dsimp only
    rw [setKeys_fields_other _ _ _ (by decide) (by decide) (by decide) (by decide)]
    exact afterPrimary_name _ _ _ _
  · dsimp only
    rw [setKeys_fields_other _ _ _ (by decide) (by decide) (by decide) (by decide)]
    exact afterPrimary_resource_group_name _ _ _ _
  · dsimp only
    rw [setKeys_fields_other _ _ _ (by decide) (by decide) (by decide) (by decide)]
    exact afterPrimary_namespace_name _ _ _ _
  · dsimp only
    rw [setKeys_fields_other _ _ _ (by decide) (by decide) (by decide) (by decide)]
    rw [afterPrimary_partner]
    rfl
  · simp [setKeys, ResourceData.Set]
  · simp [setKeys, ResourceData.Set]
  · simp [setKeys, ResourceData.Set]
  · simp [setKeys, ResourceData.Set]
  · intro k hk
    simp only [List.mem_cons, List.mem_singleton, List.not_mem_nil, or_false, not_or] at hk
    dsimp only
    rw [setKeys_fields_other _ _ _ hk.2.2.2.2.1 hk.2.2.2.2.2.1 hk.2.2.2.2.2.2.1
      hk.2.2.2.2.2.2.2]
    exact afterPrimary_fields_other _ _ _ _ _ hk.1 hk.2.1 hk.2.2.1 hk.2.2.2.1

theorem read_success_copies_fields_witness :
    resolveNamespace sampleSdk sampleDataId = .ok ("rg-n", "ns-n") ∧
    (dataSourceServiceBusNamespaceDisasterRecoveryConfigRead sampleSdk
      (sampleClient sampleGetOk sampleKeysOk) sampleDataId).d.id =
      sampleSdk.ID (NewDisasterRecoveryConfigID "sub-account" "rg-n" "ns-n" "dr") ∧
    (dataSourceServiceBusNamespaceDisasterRecoveryConfigRead sampleSdk
      (sampleClient sampleGetOk sampleKeysOk) sampleDataId).d.fields
      "partner_namespace_id" = some "partner-ns" ∧
    (dataSourceServiceBusNamespaceDisasterRecoveryConfigRead sampleSdk
      (sampleClient sampleGetOk sampleKeysOk) sampleDataId).d.fields
      "default_secondary_key" = some "key-2" :=
  have h := read_success_copies_fields sampleSdk (sampleClient sampleGetOk sampleKeysOk)
    sampleDataId "rg-n" "ns-n" (some 200) (some 200) ⟨some "partner-ns"⟩
    ⟨some "alias-conn-1", some "alias-conn-2", some "key-1", some "key-2"⟩ rfl rfl rfl
  ⟨rfl, h.2.1, h.2.2.2.2.2.1, h.2.2.2.2.2.2.2.2.2.1⟩

/-! ## The keys lookup -/

/-- C10: the read makes the keys lookup (`client.ListKeys`) at most once, and when it makes
it, the trace starts with the primary lookup, that lookup returned no error, and the
authorization rule queried has the subscription, resource group and namespace name of the
queried config ID and is named by its alias, which is the `name` input. -/
theorem read_keys_lookup_once (sdk : Sdk) (client : Client) (d : ResourceData) :
    ((dataSourceServiceBusNamespaceDisasterRecoveryConfigRead sdk client d).trace.filter
      Event.isListKeys).length ≤ 1 ∧
    ∀ a, Event.listKeys a ∈
        (dataSourceServiceBusNamespaceDisasterRecoveryConfigRead sdk client d).trace →
      ∃ id resp rest,
        (dataSourceServiceBusNamespaceDisasterRecoveryConfigRead sdk client d).trace =
          Event.get id :: Event.listKeys a :: rest ∧
        client.Get id = (resp, none) ∧
        a.SubscriptionId = id.SubscriptionId ∧
        a.ResourceGroupName = id.ResourceGroupName ∧
        a.NamespaceName = id.NamespaceName ∧
        a.AuthorizationRuleName = id.Alias ∧
        id.Alias = d.Get "name" ∧
        id.SubscriptionId = client.SubscriptionId := by
  cases hres : resolveNamespace sdk d with
  | error msg =>
    rw [read_of_resolve_err sdk client d msg hres]
    simp
  | ok p =>
    obtain ⟨rg, ns⟩ := p
    rcases hg : client.Get (NewDisasterRecoveryConfigID client.SubscriptionId rg ns
      (d.Get "name")) with ⟨resp, err⟩
    cases err with
    | some e =>
      rw [read_of_get_err sdk client d rg ns e resp hres hg]
      split <;> simp [Event.isListKeys]
    | none =>
      rcases hk : client.ListKeys (NewAuthorizationRuleID client.SubscriptionId rg ns
        (d.Get "name")) with ⟨keys, kerr⟩
      cases kerr with
      | some e =>
        rw [read_of_keys_err sdk client d rg ns e resp keys hres hg hk]
        refine ⟨by simp [Event.isListKeys], ?_⟩
        intro a ha
        simp only [List.mem_cons, List.mem_singleton, List.not_mem_nil, or_false,
          Event.listKeys.injEq, reduceCtorEq, false_or] at ha
        subst ha
        exact ⟨_, resp, _, rfl, hg, rfl, rfl, rfl, rfl, rfl, rfl⟩
      | none =>
        rw [read_of_both_ok sdk client d rg ns resp keys hres hg hk]
        refine ⟨by simp [Event.isListKeys], ?_⟩
        intro a ha
        simp only [List.mem_cons, List.mem_singleton, List.not_mem_nil, or_false,
          Event.listKeys.injEq, reduceCtorEq, false_or] at ha
        subst ha
        exact ⟨_, resp, _, rfl, hg, rfl, rfl, rfl, rfl, rfl, rfl⟩

theorem read_keys_lookup_once_witness :
    Event.listKeys ⟨"sub-account", "rg-n", "ns-n", "dr"⟩ ∈
      (dataSourceServiceBusNamespaceDisasterRecoveryConfigRead sampleSdk
        (sampleClient sampleGetOk sampleKeysOk) sampleDataId).trace ∧
    ∃ id resp rest,
      (dataSourceServiceBusNamespaceDisasterRecoveryConfigRead sampleSdk
        (sampleClient sampleGetOk sampleKeysOk) sampleDataId).trace =
        Event.get id :: Event.listKeys ⟨"sub-account", "rg-n", "ns-n", "dr"⟩ :: rest ∧
      (sampleClient sampleGetOk sampleKeysOk).Get id = (resp, none) ∧
      id.Alias = sampleDataId.Get "name" :=
  have h := (read_keys_lookup_once sampleSdk (sampleClient sampleGetOk sampleKeysOk)
    sampleDataId).2 ⟨"sub-account", "rg-n", "ns-n", "dr"⟩ (by decide)
  ⟨by decide, h.elim fun id h1 => h1.elim fun resp h2 => h2.elim fun rest h3 =>
    ⟨id, resp, rest, h3.1, h3.2.1, h3.2.2.2.2.2.2.1⟩⟩

/-! ## The schema -/

/-- C7, the count as the spec gives it: the schema does not declare six fields with
`Computed` set; it declares five. -/
theorem schema_computed_not_six :
    computedKeys dataSourceServiceBusNamespaceDisasterRecoveryConfig =
      ["partner_namespace_id", "primary_connection_string_alias",
        "secondary_connection_string_alias", "default_primary_key", "default_secondary_key"] ∧
    (computedKeys dataSourceServiceBusNamespaceDisasterRecoveryConfig).length ≠ 6 := by
  decide

/-- C7, amended: the schema declares exactly five fields with `Computed` set, and a read
whose two lookups succeed with the config model, its properties and the keys model present
writes each of the five from the responses. -/
theorem read_success_writes_computed (sdk : Sdk) (client : Client) (d : ResourceData)
    (rg ns : String) (h1 h2 : Option Nat) (props : ArmDisasterRecoveryProperties)
    (keysModel : AccessKeys)
    (hres : resolveNamespace sdk d = .ok (rg, ns))
    (hget : client.Get (NewDisasterRecoveryConfigID client.SubscriptionId rg ns (d.Get "name"))
      = (⟨h1, some ⟨some props⟩⟩, none))
    (hkeys : client.ListKeys (NewAuthorizationRuleID client.SubscriptionId rg ns (d.Get "name"))
      = (⟨h2, some keysModel⟩, none)) :
    (computedKeys dataSourceServiceBusNamespaceDisasterRecoveryConfig).length = 5 ∧
    (List.map (dataSourceServiceBusNamespaceDisasterRecoveryConfigRead sdk client d).d.fields
      (computedKeys dataSourceServiceBusNamespaceDisasterRecoveryConfig)) =
      [props.PartnerNamespace, keysModel.AliasPrimaryConnectionString,
        keysModel.AliasSecondaryConnectionString, keysModel.PrimaryKey,
        keysModel.SecondaryKey] := by
  rw [read_of_both_ok sdk client d rg ns _ _ hres hget hkeys]
  refine ⟨by decide, ?_⟩
  have hc : computedKeys dataSourceServiceBusNamespaceDisasterRecoveryConfig =
      ["partner_namespace_id", "primary_connection_string_alias",
        "secondary_connection_string_alias", "default_primary_key", "default_secondary_key"] := by
    decide
  rw [hc]
  have hp : (setKeys (afterPrimary sdk d
      (NewDisasterRecoveryConfigID client.SubscriptionId rg ns (d.Get "name"))
      ⟨h1, some ⟨some props⟩⟩) ⟨h2, some keysModel⟩).fields "partner_namespace_id"
      = props.PartnerNamespace := by
    rw [setKeys_fields_other _ _ _ (by decide) (by decide) (by decide) (by decide),
      afterPrimary_partner]
    rfl
  simp only [List.map_cons, List.map_nil, hp]
  simp [setKeys, ResourceData.Set]

theorem read_success_writes_computed_witness :
    resolveNamespace sampleSdk sampleDataPair = .ok ("rg-p", "ns-p") ∧
    (List.map (dataSourceServiceBusNamespaceDisasterRecoveryConfigRead sampleSdk
        (sampleClient sampleGetOk sampleKeysOk) sampleDataPair).d.fields
      (computedKeys dataSourceServiceBusNamespaceDisasterRecoveryConfig)) =
      [some "partner-ns", some "alias-conn-1", some "alias-conn-2", some "key-1",
        some "key-2"] :=
  ⟨rfl, (read_success_writes_computed sampleSdk (sampleClient sampleGetOk sampleKeysOk)
    sampleDataPair "rg-p" "ns-p" (some 200) (some 200) ⟨some "partner-ns"⟩
    ⟨some "alias-conn-1", some "alias-conn-2", some "key-1", some "key-2"⟩ rfl rfl rfl).2⟩

/-- C4, as the spec gives it: a configuration that supplies `name` and
`resource_group_name` only (no `namespace_name`, no `namespace_id`) passes the declared
`Required` / `AtLeastOneOf` constraints. -/
theorem schema_accepts_lone_resource_group :
    sampleConfigLoneGroup.supplies "name" = true ∧
    sampleConfigLoneGroup.supplies "resource_group_name" = true ∧
    sampleConfigLoneGroup.supplies "namespace_name" = false ∧
    sampleConfigLoneGroup.supplies "namespace_id" = false ∧
    schemaAccepts dataSourceServiceBusNamespaceDisasterRecoveryConfig sampleConfigLoneGroup
      = true := by
  decide

/-- C4, amended: a configuration passes the declared `Required` / `AtLeastOneOf` constraints
of the schema exactly when it supplies `name` and at least one of `namespace_id`,
`resource_group_name`, `namespace_name`. -/
theorem schema_accepts_iff (c : Config) :
    schemaAccepts dataSourceServiceBusNamespaceDisasterRecoveryConfig c = true ↔
      (c.supplies "name" = true ∧
        (c.supplies "namespace_id" = true ∨ c.supplies "resource_group_name" = true ∨
          c.supplies "namespace_name" = true)) := by
  simp only [schemaAccepts, dataSourceServiceBusNamespaceDisasterRecoveryConfig, entryAccepts,
    List.all_cons, List.all_nil, List.any_cons, List.any_nil, List.isEmpty_cons,
    List.cons_append, List.nil_append,
    List.isEmpty_nil, Bool.not_true, Bool.not_false, Bool.false_or, Bool.true_or, Bool.or_false,
    Bool.and_true, Bool.true_and, Bool.and_eq_true, Bool.or_eq_true]
  tauto

/-! ## Where the keys end up -/

theorem setKeys_fields_not_key (d : ResourceData) (keys : ListKeysOperationResponse)
    (k : String) (hk : k ∉ keyFieldNames) : (setKeys d keys).fields k = d.fields k := by
  simp only [keyFieldNames, List.mem_cons, List.mem_singleton, List.not_mem_nil, or_false,
    not_or] at hk
  exact setKeys_fields_other d keys k hk.1 hk.2.1 hk.2.2.1 hk.2.2.2

theorem keyFieldNames_sensitive (k : String) (hk : k ∈ keyFieldNames) :
    ∃ s, lookupSchema dataSourceServiceBusNamespaceDisasterRecoveryConfig k = some s ∧
      s.Sensitive = true ∧ s.Computed = true := by
  simp only [keyFieldNames, List.mem_cons, List.mem_singleton, List.not_mem_nil, or_false] at hk
  rcases hk with rfl | rfl | rfl | rfl
  · exact ⟨⟨false, false, true, true, false, []⟩, by decide, rfl, rfl⟩
  · exact ⟨⟨false, false, true, true, false, []⟩, by decide, rfl, rfl⟩
  · exact ⟨⟨false, false, true, true, false, []⟩, by decide, rfl, rfl⟩
  · exact ⟨⟨false, false, true, true, false, []⟩, by decide, rfl, rfl⟩

/-- After a successful primary lookup, the resource ID and every field outside the four key
fields are those of `afterPrimary`, whatever the keys lookup answers. -/
theorem read_outside_keys (sdk : Sdk) (client : Client) (d : ResourceData)
    (rg ns : String) (resp : GetOperationResponse)
    (hres : resolveNamespace sdk d = .ok (rg, ns))
    (hget : client.Get (NewDisasterRecoveryConfigID client.SubscriptionId rg ns (d.Get "name"))
      = (resp, none)) :
    (dataSourceServiceBusNamespaceDisasterRecoveryConfigRead sdk client d).d.id =
      sdk.ID (NewDisasterRecoveryConfigID client.SubscriptionId rg ns (d.Get "name")) ∧
    ∀ k, k ∉ keyFieldNames →
      (dataSourceServiceBusNamespaceDisasterRecoveryConfigRead sdk client d).d.fields k =
        (afterPrimary sdk d
          (NewDisasterRecoveryConfigID client.SubscriptionId rg ns (d.Get "name")) resp).fields
          k := by
  rcases hk : client.ListKeys (NewAuthorizationRuleID client.SubscriptionId rg ns
    (d.Get "name")) with ⟨keys, kerr⟩
  cases kerr with
  | some e =>
    rw [read_of_keys_err sdk client d rg ns e resp keys hres hget hk]
    exact ⟨rfl, fun _ _ => rfl⟩
  | none =>
    rw [read_of_both_ok sdk client d rg ns resp keys hres hget hk]
    refine ⟨?_, fun k hkk => ?_⟩
    · dsimp only
      rw [setKeys_id]
      rfl
    · dsimp only
      exact setKeys_fields_not_key _ _ _ hkk

/-- Two clients that differ only in what the keys lookup answers lead to the same resource
ID and the same fields outside the four key fields. -/
theorem read_indep_of_keys (sdk : Sdk) (c1 c2 : Client) (d : ResourceData)
    (hsub : c1.SubscriptionId = c2.SubscriptionId) (hget : c1.Get = c2.Get) :
    (dataSourceServiceBusNamespaceDisasterRecoveryConfigRead sdk c1 d).d.id =
      (dataSourceServiceBusNamespaceDisasterRecoveryConfigRead sdk c2 d).d.id ∧
    ∀ k, k ∉ keyFieldNames →
      (dataSourceServiceBusNamespaceDisasterRecoveryConfigRead sdk c1 d).d.fields k =
        (dataSourceServiceBusNamespaceDisasterRecoveryConfigRead sdk c2 d).d.fields k := by
  cases hres : resolveNamespace sdk d with
  | error msg =>
    rw [read_of_resolve_err sdk c1 d msg hres, read_of_resolve_err sdk c2 d msg hres]
    exact ⟨rfl, fun _ _ => rfl⟩
  | ok p =>
    obtain ⟨rg, ns⟩ := p
    rcases hg1 : c1.Get (NewDisasterRecoveryConfigID c1.SubscriptionId rg ns
      (d.Get "name")) with ⟨resp, err⟩
    have hg2 : c2.Get (NewDisasterRecoveryConfigID c2.SubscriptionId rg ns (d.Get "name"))
        = (resp, err) := by
      rw [← hget, ← hsub]
      exact hg1
    cases err with
    | some e =>
      rw [read_of_get_err sdk c1 d rg ns e resp hres hg1,
        read_of_get_err sdk c2 d rg ns e resp hres hg2]
      split
      · exact ⟨rfl, fun _ _ => rfl⟩
      · exact ⟨rfl, fun _ _ => rfl⟩
    | none =>
      have h1 := read_outside_keys sdk c1 d rg ns resp hres hg1
      have h2 := read_outside_keys sdk c2 d rg ns resp hres hg2
      refine ⟨?_, fun k hk => ?_⟩
      · rw [h1.1, h2.1, hsub]
      · rw [h1.2 k hk, h2.2 k hk, hsub]

/-- C8: the four fields the read fills from the keys response are declared `Sensitive` and
`Computed` in the schema, and nothing of the keys response reaches any other place: the
block that copies the keys changes no field outside those four, and two reads that differ
only in what the keys lookup answers end with the same resource ID and can differ only at a
field that the schema declares `Sensitive` and `Computed`. -/
theorem keys_only_in_sensitive_fields (sdk : Sdk) (c1 c2 : Client) (d : ResourceData)
    (hsub : c1.SubscriptionId = c2.SubscriptionId) (hget : c1.Get = c2.Get) :
    (∀ k ∈ keyFieldNames,
      ∃ s, lookupSchema dataSourceServiceBusNamespaceDisasterRecoveryConfig k = some s ∧
        s.Sensitive = true ∧ s.Computed = true) ∧
    (∀ (x : ResourceData) (keys : ListKeysOperationResponse) (k : String),
      (setKeys x keys).fields k ≠ x.fields k → k ∈ keyFieldNames) ∧
    (dataSourceServiceBusNamespaceDisasterRecoveryConfigRead sdk c1 d).d.id =
      (dataSourceServiceBusNamespaceDisasterRecoveryConfigRead sdk c2 d).d.id ∧
    (∀ k, (dataSourceServiceBusNamespaceDisasterRecoveryConfigRead sdk c1 d).d.fields k ≠
        (dataSourceServiceBusNamespaceDisasterRecoveryConfigRead sdk c2 d).d.fields k →
      ∃ s, lookupSchema dataSourceServiceBusNamespaceDisasterRecoveryConfig k = some s ∧
        s.Sensitive = true ∧ s.Computed = true) := by
  refine ⟨keyFieldNames_sensitive, ?_, (read_indep_of_keys sdk c1 c2 d hsub hget).1, ?_⟩
  · intro x keys k hne
    by_contra hk
    exact hne (setKeys_fields_not_key x keys k hk)
  · intro k hne
    apply keyFieldNames_sensitive
    by_contra hk
    exact hne ((read_indep_of_keys sdk c1 c2 d hsub hget).2 k hk)

theorem keys_only_in_sensitive_fields_witness :
    (dataSourceServiceBusNamespaceDisasterRecoveryConfigRead sampleSdk
      (sampleClient sampleGetOk sampleKeysOk) sampleDataPair).d.fields "default_primary_key" ≠
    (dataSourceServiceBusNamespaceDisasterRecoveryConfigRead sampleSdk
      (sampleClient sampleGetOk sampleKeysError) sampleDataPair).d.fields
      "default_primary_key" ∧
    ∃ s, lookupSchema dataSourceServiceBusNamespaceDisasterRecoveryConfig "default_primary_key"
        = some s ∧ s.Sensitive = true ∧ s.Computed = true :=
  ⟨by decide,
    (keys_only_in_sensitive_fields sampleSdk (sampleClient sampleGetOk sampleKeysOk)
      (sampleClient sampleGetOk sampleKeysError) sampleDataPair rfl rfl).2.2.2
      "default_primary_key" (by decide)⟩

end ServiceBus
